import Mathlib

/-!
Shallow embedding of the Pasugo delivery-marketplace backend
(request lifecycle routes, fee computation, rider discovery, and the
messaging layer), together with theorems settling the specification's
claims against it.

Conventions of the embedding:
* machine time is `Nat` (seconds); `now` is passed explicitly
  everywhere `datetime.utcnow()` appears in the source;
* money and coordinates are `ℚ` (the source uses `Decimal` for money);
* fallible route handlers return `Except ApiError _`, mirroring the
  `raise HTTPException` exits; database row lookups by id are elided:
  each operation acts on the request row it found (the not-found branch
  is outside every claim);
* a caller is its JWT identity: user id, user type, and the rider
  profile id (meaningful only for rider-type users, as in the source
  where `current_user.rider_profile.rider_id` is only reached behind a
  `user_type == "rider"` guard).
-/

namespace Pasugo

/-- `models/request.py` `RequestStatus`. -/
inductive RequestStatus where
  | pending
  | assigned
  | in_progress
  | completed
  | cancelled
deriving DecidableEq, Repr

/-- Payment sub-state values actually written by `routes/requests.py`
(`PaymentStatus.pending`, `.submitted`, `.confirmed`). -/
inductive PaymentStatus where
  | pending
  | submitted
  | confirmed
deriving DecidableEq, Repr

/-- `current_user.user_type` values relevant to the request routes. -/
inductive UserType where
  | customer
  | rider
  | admin
deriving DecidableEq, Repr

/-- The HTTP error classes raised by the request routes. -/
inductive ApiError where
  | forbidden   -- 403
  | notFound    -- 404
  | badRequest  -- 400
deriving DecidableEq, Repr

/-- One row of the `requests` table, restricted to the columns the
lifecycle routes read or write. -/
structure RequestState where
  request_id : Nat
  customer_id : Nat
  rider_id : Option Nat
  selected_rider_id : Option Nat
  notification_sent_at : Option Nat
  status : RequestStatus
  payment_status : Option PaymentStatus
  payment_method : Option String
  item_cost : Option ℚ
  service_fee : Option ℚ
  total_amount : Option ℚ
  gcash_reference : Option String
  payment_proof_url : Option String
  completed_at : Option Nat
  updated_at : Nat
deriving DecidableEq, Repr

/-- The authenticated caller (`current_user`): user id, user type, and
`rider_profile.rider_id` for rider-type users. -/
structure Caller where
  user_id : Nat
  user_type : UserType
  riderId : Nat
deriving DecidableEq, Repr

/-- `POST /requests/create` (`create_request`): the freshly inserted
row. Validation of delivery-category fields happens before the insert
and does not affect the inserted lifecycle columns. -/
def create_request (now : Nat) (u : Caller) (rid cid : Nat)
    (payment_method : Option String) : Except ApiError RequestState :=
  if u.user_type ≠ UserType.customer then .error .forbidden
  else .ok {
    request_id := rid
    customer_id := cid
    rider_id := none
    selected_rider_id := none
    notification_sent_at := none
    status := RequestStatus.pending
    payment_status := none
    payment_method :=
      if payment_method = some "cod" ∨ payment_method = some "gcash"
      then payment_method else none
    item_cost := none
    service_fee := none
    total_amount := none
    gcash_reference := none
    payment_proof_url := none
    completed_at := none
    updated_at := now }

/-- `POST /requests/{id}/accept` (`accept_request`): rider-only; only
guard on the row is `status == pending`; sets `rider_id` and
`status := assigned`. It touches neither `selected_rider_id` nor
`notification_sent_at`. -/
def accept_request (now : Nat) (u : Caller) (s : RequestState) :
    Except ApiError RequestState :=
  if u.user_type ≠ UserType.rider then .error .forbidden
  else if s.status ≠ RequestStatus.pending then .error .badRequest
  else .ok { s with
    rider_id := some u.riderId
    status := RequestStatus.assigned
    updated_at := now }

/-- `PATCH /requests/{id}/status` (`update_request_status`): customer
must own the row, a rider must be the assigned rider; the only status
guard is `status == completed`. -/
def update_request_status (now : Nat) (u : Caller)
    (new_status : RequestStatus) (s : RequestState) :
    Except ApiError RequestState :=
  if u.user_type = UserType.customer ∧ s.customer_id ≠ u.user_id then
    .error .forbidden
  else if u.user_type = UserType.rider ∧ s.rider_id ≠ some u.riderId then
    .error .forbidden
  else if s.status = RequestStatus.completed then .error .badRequest
  else .ok { s with
    status := new_status
    updated_at := now
    completed_at :=
      if new_status = RequestStatus.completed then some now
      else s.completed_at }

/-- `POST /requests/{id}/cancel` (`cancel_request`): ownership check,
then the only status guard is `status == completed`. -/
def cancel_request (now : Nat) (u : Caller) (s : RequestState) :
    Except ApiError RequestState :=
  if s.customer_id ≠ u.user_id then .error .forbidden
  else if s.status = RequestStatus.completed then .error .badRequest
  else .ok { s with
    status := RequestStatus.cancelled
    updated_at := now }

/-- `POST /requests/{id}/select-rider` (`select_rider_for_request`):
customer-only, owner-only, `status == pending` required; stamps
`selected_rider_id` and `notification_sent_at`. The existence lookup of
the chosen rider row is elided (it reads a different table). -/
def select_rider_for_request (now : Nat) (u : Caller) (rider_id : Nat)
    (s : RequestState) : Except ApiError RequestState :=
  if u.user_type ≠ UserType.customer then .error .forbidden
  else if s.customer_id ≠ u.user_id then .error .forbidden
  else if s.status ≠ RequestStatus.pending then .error .badRequest
  else .ok { s with
    selected_rider_id := some rider_id
    notification_sent_at := some now
    updated_at := now }

/-- `POST /requests/{id}/decline` (`decline_request`): rider-only and
the caller must be the selected rider; clears the offer fields and does
not touch `status`. -/
def decline_request (now : Nat) (u : Caller) (s : RequestState) :
    Except ApiError RequestState :=
  if u.user_type ≠ UserType.rider then .error .forbidden
  else if s.selected_rider_id ≠ some u.riderId then .error .forbidden
  else .ok { s with
    selected_rider_id := none
    notification_sent_at := none
    updated_at := now }

/-- `POST /requests/{id}/start-delivery` (`start_delivery`): rider-only,
assigned rider only, `status == assigned` required. -/
def start_delivery (now : Nat) (u : Caller) (s : RequestState) :
    Except ApiError RequestState :=
  if u.user_type ≠ UserType.rider then .error .forbidden
  else if s.rider_id ≠ some u.riderId then .error .forbidden
  else if s.status ≠ RequestStatus.assigned then .error .badRequest
  else .ok { s with
    status := RequestStatus.in_progress
    updated_at := now }

/-- `POST /requests/{id}/submit-bill` (`submit_bill`): rider-only,
assigned rider only, status in {assigned, in_progress}; sets the money
fields with `total = item_cost + service_fee` and
`payment_status := pending`. -/
def submit_bill (now : Nat) (u : Caller) (item_cost service_fee : ℚ)
    (s : RequestState) : Except ApiError RequestState :=
  if u.user_type ≠ UserType.rider then .error .forbidden
  else if s.rider_id ≠ some u.riderId then .error .forbidden
  else if s.status ≠ RequestStatus.assigned ∧
          s.status ≠ RequestStatus.in_progress then .error .badRequest
  else .ok { s with
    item_cost := some item_cost
    service_fee := some service_fee
    total_amount := some (item_cost + service_fee)
    payment_status := some PaymentStatus.pending
    updated_at := now }

/-- `POST /requests/{id}/complete-delivery` (`complete_delivery`):
rider-only, assigned rider only, status in {assigned, in_progress};
sets `status := completed` and stamps `completed_at`. -/
def complete_delivery (now : Nat) (u : Caller) (s : RequestState) :
    Except ApiError RequestState :=
  if u.user_type ≠ UserType.rider then .error .forbidden
  else if s.rider_id ≠ some u.riderId then .error .forbidden
  else if s.status ≠ RequestStatus.assigned ∧
          s.status ≠ RequestStatus.in_progress then .error .badRequest
  else .ok { s with
    status := RequestStatus.completed
    completed_at := some now
    updated_at := now }

/-- `POST /requests/{id}/confirm-payment` (`confirm_payment`):
rider-only and assigned rider only; no status guard. Saves the optional
proof URL, sets `payment_status := confirmed`, and auto-completes the
delivery exactly when the status is still `assigned` or `in_progress`. -/
def confirm_payment (now : Nat) (u : Caller)
    (payment_proof_url : Option String) (s : RequestState) :
    Except ApiError RequestState :=
  if u.user_type ≠ UserType.rider then .error .forbidden
  else if s.rider_id ≠ some u.riderId then .error .forbidden
  else
    let s1 := { s with
      payment_proof_url :=
        match payment_proof_url with
        | some url => some url
        | none => s.payment_proof_url
      payment_status := some PaymentStatus.confirmed
      updated_at := now }
    if s1.status = RequestStatus.assigned ∨
       s1.status = RequestStatus.in_progress then
      .ok { s1 with
        status := RequestStatus.completed
        completed_at := some now }
    else .ok s1

/-- `GET /requests/{id}/status-poll` (`poll_request_status`): customer
callers must own the row; if an offer timestamp is present, is over 600
seconds old, and the status is still `pending`, the offer fields are
cleared and `timed_out = true` is reported; otherwise the state is
untouched and `timed_out = false`. Returns (new row, timed_out). -/
def poll_request_status (now : Nat) (u : Caller) (s : RequestState) :
    Except ApiError (RequestState × Bool) :=
  if u.user_type = UserType.customer ∧ s.customer_id ≠ u.user_id then
    .error .forbidden
  else
    match s.notification_sent_at with
    | some t =>
        if 600 < now - t ∧ s.status = RequestStatus.pending then
          .ok ({ s with
                  selected_rider_id := none
                  notification_sent_at := none }, true)
        else .ok (s, false)
    | none => .ok (s, false)

/-- States of a request row reachable through the lifecycle routes,
starting from a freshly created row. -/
inductive Reachable : RequestState → Prop where
  | created {now u rid cid pm s} :
      create_request now u rid cid pm = .ok s → Reachable s
  | accepted {now u s s'} :
      Reachable s → accept_request now u s = .ok s' → Reachable s'
  | statusUpdated {now u st s s'} :
      Reachable s → update_request_status now u st s = .ok s' →
      Reachable s'
  | cancelled {now u s s'} :
      Reachable s → cancel_request now u s = .ok s' → Reachable s'
  | riderSelected {now u rid s s'} :
      Reachable s → select_rider_for_request now u rid s = .ok s' →
      Reachable s'
  | declined {now u s s'} :
      Reachable s → decline_request now u s = .ok s' → Reachable s'
  | deliveryStarted {now u s s'} :
      Reachable s → start_delivery now u s = .ok s' → Reachable s'
  | billSubmitted {now u c f s s'} :
      Reachable s → submit_bill now u c f s = .ok s' → Reachable s'
  | deliveryCompleted {now u s s'} :
      Reachable s → complete_delivery now u s = .ok s' → Reachable s'
  | paymentConfirmed {now u url s s'} :
      Reachable s → confirm_payment now u url s = .ok s' → Reachable s'
  | polled {now u s s' b} :
      Reachable s → poll_request_status now u s = .ok (s', b) →
      Reachable s'

/-! ### `utils/distance.py` — service-fee tiers -/

/-- `SERVICE_FEE_TIERS`: (band upper bound in km, fee in pesos). -/
def SERVICE_FEE_TIERS : List (ℚ × ℚ) := [(3, 30), (6, 60), (9, 90)]

/-- `FEE_PER_EXTRA_BRACKET`. -/
def FEE_PER_EXTRA_BRACKET : ℚ := 30

/-- `BRACKET_SIZE_KM`. -/
def BRACKET_SIZE_KM : ℚ := 3

/-- The `for max_km, fee in SERVICE_FEE_TIERS` loop inside
`calculate_service_fee`: first band whose bound the distance does not
exceed. -/
def tierLookup : List (ℚ × ℚ) → ℚ → Option ℚ
  | [], _ => none
  | (max_km, fee) :: rest, d => if d ≤ max_km then some fee else tierLookup rest d

/-- `calculate_service_fee` from `utils/distance.py`: 30 for any
distance at or below 0, the tier table up to 9 km, and beyond that the
last tier's fee plus 30 per started 3-km bracket (`math.ceil`). The
literals 9 and 90 are `SERVICE_FEE_TIERS[-1]`. -/
def calculate_service_fee (distance_km : ℚ) : ℚ :=
  if distance_km ≤ 0 then 30
  else
    match tierLookup SERVICE_FEE_TIERS distance_km with
    | some fee => fee
    | none =>
        let extra_km := distance_km - 9
        let extra_brackets : ℤ := ⌈extra_km / BRACKET_SIZE_KM⌉
        90 + FEE_PER_EXTRA_BRACKET * (extra_brackets : ℚ)

/-! ### `routes/locations.py` — `get_available_riders` -/

/-- One `user_locations` row as selected by the discovery query. -/
structure PresenceRow where
  latitude : ℚ
  longitude : ℚ
  accuracy : Option Nat
  address : Option String
  created_at : Nat
deriving DecidableEq, Repr

/-- One `riders` row (with its joined `users` columns) and its latest
`user_locations` row (the `LEFT JOIN`; `none` when the rider has no
presence record). -/
structure RiderRow where
  rider_id : Nat
  user_id : Nat
  full_name : String
  phone_number : String
  vehicle_type : String
  license_plate : String
  availability_status : String
  rating : ℚ
  total_tasks_completed : Nat
  presence : Option PresenceRow
deriving DecidableEq, Repr

/-- The status predicate of the discovery query's `WHERE` clause:
`r.availability_status IN ('available', 'busy')`. -/
def workable (availability_status : String) : Bool :=
  availability_status == "available" || availability_status == "busy"

/-- The SQL `WHERE` clause of the discovery query: status in
('available', 'busy') and `ul.created_at > NOW() - INTERVAL 5 MINUTE`.
A rider with no presence row has a NULL `ul.created_at` and fails the
comparison. -/
def freshWorkable (now : Nat) (r : RiderRow) : Bool :=
  workable r.availability_status &&
    match r.presence with
    | some p => decide (now < p.created_at + 300)
    | none => false

/-- `ORDER BY r.rating DESC`. SQL leaves the order of rating ties
unspecified; the model fixes the stable one. -/
def ratingDesc (a b : RiderRow) : Bool := decide (b.rating ≤ a.rating)

/-- Stable insertion of one element into a list sorted by `le`. -/
def insertLe (le : α → α → Bool) (a : α) : List α → List α
  | [] => [a]
  | x :: xs => if le x a then x :: insertLe le a xs else a :: x :: xs

/-- Stable insertion sort by `le`: the model of the SQL `ORDER BY` and
of Python's `list.sort` (both sorts here only fix the order; which rows
appear is decided by the filters and the `LIMIT`). -/
def sortLe (le : α → α → Bool) : List α → List α
  | [] => []
  | x :: xs => insertLe le x (sortLe le xs)

/-- A cell of a raw SQL result row, as the endpoint reads them back
positionally from the cursor (Python is dynamically typed, so a cell
can hold any of these payloads, or SQL NULL). -/
inductive DBValue where
  | nat (n : Nat)
  | rat (q : ℚ)
  | str (s : String)
  | time (t : Nat)
  | null
deriving DecidableEq, Repr

/-- Python truthiness of a cell (`if rider.latitude and
rider.longitude`): None and numeric zero are falsy. -/
def DBValue.truthy : DBValue → Bool
  | .null => false
  | .nat n => decide (n ≠ 0)
  | .rat q => decide (q ≠ 0)
  | .str s => decide (s ≠ "")
  | .time _ => true

/-- `float(cell)` on the numeric cells the loop reads. -/
def DBValue.toRat : DBValue → ℚ
  | .nat n => n
  | .rat q => q
  | _ => 0

/-- The row tuple the discovery SELECT yields for one fetched rider:
its 14 columns in SELECT order, indices 0–13 (locations.py): rider_id,
user_id, full_name, phone_number, vehicle_type, license_plate,
availability_status, rating, total_tasks_completed, then the joined
user_locations columns latitude, longitude, accuracy, address, and
created_at aliased last_location_update (NULL for a rider with no
presence row — though the WHERE clause already drops those rows). -/
def selectRow (r : RiderRow) : List DBValue :=
  [DBValue.nat r.rider_id, DBValue.nat r.user_id, DBValue.str r.full_name,
   DBValue.str r.phone_number, DBValue.str r.vehicle_type,
   DBValue.str r.license_plate, DBValue.str r.availability_status,
   DBValue.rat r.rating, DBValue.nat r.total_tasks_completed] ++
  (match r.presence with
   | some p =>
       [DBValue.rat p.latitude, DBValue.rat p.longitude,
        (match p.accuracy with | some a => DBValue.nat a | none => DBValue.null),
        (match p.address with | some a => DBValue.str a | none => DBValue.null),
        DBValue.time p.created_at]
   | none => [DBValue.null, DBValue.null, DBValue.null, DBValue.null, DBValue.null])

/-- The `AvailableRider` object of `models/location.py`, fields holding
whatever cells the row happened to supply (Python assigns them without
type checks). -/
structure AvailableRider where
  rider_id : DBValue
  user_id : DBValue
  full_name : DBValue
  phone_number : DBValue
  vehicle_type : DBValue
  license_plate : DBValue
  availability_status : DBValue
  rating : DBValue
  total_tasks_completed : DBValue
  latitude : DBValue
  longitude : DBValue
  accuracy : DBValue
  address : DBValue
  distance_km : DBValue
  last_location_update : DBValue
deriving DecidableEq, Repr

/-- `AvailableRider.from_db_row` (models/location.py): builds the
candidate from the positional cells `row[0]` … `row[14]`; `row[i]?`
being `none` is Python's IndexError. The discovery SELECT supplies
only 14 columns, so for its rows the `row[14]` read is out of range
(and `row[13]`, the timestamp, lands in `distance_km` — the model
copies that misalignment as the source has it). -/
def AvailableRider.from_db_row (row : List DBValue) : Option AvailableRider := do
  let rider_id ← row[0]?
  let user_id ← row[1]?
  let full_name ← row[2]?
  let phone_number ← row[3]?
  let vehicle_type ← row[4]?
  let license_plate ← row[5]?
  let availability_status ← row[6]?
  let rating ← row[7]?
  let total_tasks_completed ← row[8]?
  let latitude ← row[9]?
  let longitude ← row[10]?
  let accuracy ← row[11]?
  let address ← row[12]?
  let distance_km ← row[13]?
  let last_location_update ← row[14]?
  pure { rider_id, user_id, full_name, phone_number, vehicle_type,
         license_plate, availability_status, rating,
         total_tasks_completed, latitude, longitude, accuracy, address,
         distance_km, last_location_update }

/-- One element of the endpoint's `riders_list`. The source also stores
`round(distance, 2)` for display; the model keeps the exact distance
(the rounding is a float-formatting step that does not affect which
riders are returned). -/
structure AvailableRiderOut where
  rider_id : DBValue
  distance_km : ℚ
deriving DecidableEq, Repr

/-- The `for row in rows` loop of `get_available_riders`: each row is
first materialized via `AvailableRider.from_db_row` — an IndexError
there aborts the whole request into the endpoint's `except` handler.
A row surviving construction passes the coordinate-truthiness test and
the `distance <= radius` filter, appending in row order. -/
def riderLoop (dist : ℚ → ℚ → ℚ → ℚ → ℚ) (lat lng radius : ℚ) :
    List (List DBValue) → Except String (List AvailableRiderOut)
  | [] => .ok []
  | row :: rest =>
      match AvailableRider.from_db_row row with
      | none => .error "Error fetching available riders: tuple index out of range"
      | some rider =>
          match riderLoop dist lat lng radius rest with
          | .error e => .error e
          | .ok tail =>
              if rider.latitude.truthy && rider.longitude.truthy then
                let distance := dist lat lng rider.latitude.toRat rider.longitude.toRat
                if distance ≤ radius then
                  .ok (⟨rider.rider_id, distance⟩ :: tail)
                else .ok tail
              else .ok tail

/-- `get_available_riders` from `routes/locations.py`, parametric in
the distance function `dist` (the source's haversine is a
transcendental computation abstracted here): clamp the radius into
[1, 100]; fetch the fresh workable riders ordered by rating
descending, truncated to `limit` rows, each materialized as its
14-column SELECT row; run the per-row loop; sort the survivors by
distance. The endpoint's whole body sits in `try/except Exception`,
whose 500 `error_response` is the `.error` case — which the loop in
fact produces for every non-empty fetch, since
`AvailableRider.from_db_row` reads a 15th column. -/
def get_available_riders (dist : ℚ → ℚ → ℚ → ℚ → ℚ) (db : List RiderRow)
    (now : Nat) (lat lng radius_param : ℚ) (limit : Nat) :
    Except String (List AvailableRiderOut) :=
  let radius :=
    if radius_param < 1 ∨ 100 < radius_param then
      max 1 (min 100 radius_param)
    else radius_param
  let rows := ((sortLe ratingDesc (db.filter (freshWorkable now))).take limit).map selectRow
  match riderLoop dist lat lng radius rows with
  | .error e => .error e
  | .ok riders_list =>
      .ok (sortLe (fun a b => decide (a.distance_km ≤ b.distance_km)) riders_list)

/-! ### `routes/messaging.py` — rooms and broadcast -/

/-- One room of `ConnectionManager.rooms`: the user ids holding a live
socket in a conversation's room (the dict keys; each user id maps to a
single socket). -/
abbrev Room := List Nat

/-- `ConnectionManager.broadcast_to_room`: the user ids the payload is
sent to. Mirrors the guard
`if exclude_user_id and uid == exclude_user_id: continue`, including
the Python truthiness (an exclude id of 0 excludes nobody). Removal of
dead sockets is transport I/O outside the model: sends succeed. -/
def broadcast_to_room (room : Room) (exclude_user_id : Option Nat) :
    List Nat :=
  room.filter (fun uid =>
    !(match exclude_user_id with
      | some e => decide (e ≠ 0) && decide (uid = e)
      | none => false))

/-- The `send_message` branch of `websocket_endpoint` broadcasts the
`new_message` payload with `broadcast_to_room(conversation_id, payload)`
— no exclude argument, so the default `None`. -/
def send_message_recipients (room : Room) : List Nat :=
  broadcast_to_room room none

/-! ### `services/message_service.py` — unread counts and receipts -/

/-- One `messages` row, restricted to the columns the unread-count query
reads. -/
structure Message where
  message_id : Nat
  conversation_id : Nat
  sender_id : Nat
  is_deleted : Bool
deriving DecidableEq, Repr

/-- The messaging tables: `messages` and the `message_read_receipts`
rows as (message_id, user_id) pairs. -/
structure MessagingDB where
  messages : List Message
  receipts : List (Nat × Nat)
deriving DecidableEq, Repr

/-- The receipt-existence query
`db.query(MessageReadReceipt).filter(message_id, user_id).first()`:
whether a receipt row for this (message, user) pair exists. -/
def hasReceipt (db : MessagingDB) (message_id user_id : Nat) : Bool :=
  decide ((message_id, user_id) ∈ db.receipts)

/-- The filter of `MessageService.get_unread_count`: messages of the
conversation from another sender, not soft-deleted, with no receipt row
for the caller (the outer join plus `receipt_id == None`). -/
def unreadMessages (db : MessagingDB) (conversation_id user_id : Nat) :
    List Message :=
  db.messages.filter (fun m =>
    m.conversation_id == conversation_id &&
    m.sender_id != user_id &&
    m.is_deleted == false &&
    !(hasReceipt db m.message_id user_id))

/-- `MessageService.get_unread_count`. -/
def get_unread_count (db : MessagingDB) (conversation_id user_id : Nat) :
    Nat :=
  (unreadMessages db conversation_id user_id).length

/-- `MessageService.mark_messages_read`: for each given message id,
insert a receipt for the caller unless one already exists (the
session's autoflush makes receipts added earlier in the same loop
visible to the existence check). -/
def mark_messages_read (db : MessagingDB) :
    List Nat → Nat → MessagingDB
  | [], _ => db
  | message_id :: rest, user_id =>
      mark_messages_read
        (if hasReceipt db message_id user_id then db
         else { db with receipts := db.receipts ++ [(message_id, user_id)] })
        rest user_id

/-- The unread-count computation in the words of the specification's
claim (for comparison with `get_unread_count`): "the number of messages
in that conversation whose sender is not the caller and for which no
read receipt exists for the caller" — no condition on the soft-delete
flag. -/
def unreadCountSpec (db : MessagingDB) (conversation_id user_id : Nat) :
    Nat :=
  (db.messages.filter (fun m =>
    m.conversation_id == conversation_id &&
    m.sender_id != user_id &&
    !(hasReceipt db m.message_id user_id))).length

/-! ### Helper predicates and inversion lemmas -/

/-- Whether a route call succeeded (`Except.ok`). -/
def routeOk : Except ApiError α → Bool
  | .ok _ => true
  | .error _ => false

theorem select_rider_ok {n : Nat} {u : Caller} {r : Nat} {s s' : RequestState}
    (h : select_rider_for_request n u r s = .ok s') :
    u.user_type = UserType.customer ∧ s.customer_id = u.user_id ∧
    s.status = RequestStatus.pending ∧
    s' = { s with selected_rider_id := some r, notification_sent_at := some n, updated_at := n } := by
  unfold select_rider_for_request at h
  split at h
  · exact Except.noConfusion h
  · split at h
    · exact Except.noConfusion h
    · split at h
      · exact Except.noConfusion h
      · cases h
        refine ⟨?_, ?_, ?_, rfl⟩ <;> simp_all

theorem decline_request_ok {n : Nat} {u : Caller} {s s' : RequestState}
    (h : decline_request n u s = .ok s') :
    u.user_type = UserType.rider ∧ s.selected_rider_id = some u.riderId ∧
    s' = { s with selected_rider_id := none, notification_sent_at := none, updated_at := n } := by
  unfold decline_request at h
  split at h
  · exact Except.noConfusion h
  · split at h
    · exact Except.noConfusion h
    · cases h
      refine ⟨?_, ?_, rfl⟩ <;> simp_all

theorem accept_request_ok {n : Nat} {u : Caller} {s s' : RequestState}
    (h : accept_request n u s = .ok s') :
    u.user_type = UserType.rider ∧ s.status = RequestStatus.pending ∧
    s' = { s with rider_id := some u.riderId, status := RequestStatus.assigned, updated_at := n } := by
  unfold accept_request at h
  split at h
  · exact Except.noConfusion h
  · split at h
    · exact Except.noConfusion h
    · cases h
      refine ⟨?_, ?_, rfl⟩ <;> simp_all

theorem poll_timed_out_ok {n : Nat} {u : Caller} {s s1 : RequestState}
    (h : poll_request_status n u s = .ok (s1, true)) :
    s.status = RequestStatus.pending ∧
    s1 = { s with selected_rider_id := none, notification_sent_at := none } := by
  unfold poll_request_status at h
  split at h
  · exact Except.noConfusion h
  · split at h
    · split at h
      · cases h
        simp_all
      · cases h
    · cases h

theorem confirm_payment_ok {n : Nat} {u : Caller} {url : Option String} {s s' : RequestState}
    (h : confirm_payment n u url s = .ok s') :
    u.user_type = UserType.rider ∧ s.rider_id = some u.riderId ∧
    s'.payment_status = some PaymentStatus.confirmed ∧
    s'.item_cost = s.item_cost ∧ s'.service_fee = s.service_fee ∧
    s'.total_amount = s.total_amount ∧
    ((s.status = RequestStatus.assigned ∨ s.status = RequestStatus.in_progress) →
      s'.status = RequestStatus.completed ∧ s'.completed_at = some n) ∧
    (¬(s.status = RequestStatus.assigned ∨ s.status = RequestStatus.in_progress) →
      s'.status = s.status ∧ s'.completed_at = s.completed_at) := by
  rcases url with _ | v <;>
  · unfold confirm_payment at h
    split at h
    · exact Except.noConfusion h
    · next hu' =>
      split at h
      · exact Except.noConfusion h
      · next hr' =>
        refine ⟨by simpa using hu', by simpa using hr', ?_⟩
        dsimp only at h
        split at h
        · next hc =>
            cases h
            exact ⟨rfl, rfl, rfl, rfl, fun _ => ⟨rfl, rfl⟩, fun hn => absurd hc hn⟩
        · next hc =>
            cases h
            exact ⟨rfl, rfl, rfl, rfl, fun hy => absurd hy hc, fun _ => ⟨rfl, rfl⟩⟩

/-! ### Shared concrete fixtures -/

/-- The customer who owns request 100. -/
def customerCaller : Caller := { user_id := 1, user_type := UserType.customer, riderId := 0 }

/-- The rider holding rider profile 5 (the offered rider in the traces). -/
def riderFive : Caller := { user_id := 2, user_type := UserType.rider, riderId := 5 }

/-- A different rider, profile 9, never offered anything. -/
def riderNine : Caller := { user_id := 3, user_type := UserType.rider, riderId := 9 }

/-- The row `create_request` inserts at time 0 for customer 1. -/
def baseRequest : RequestState where
  request_id := 100
  customer_id := 1
  rider_id := none
  selected_rider_id := none
  notification_sent_at := none
  status := RequestStatus.pending
  payment_status := none
  payment_method := none
  item_cost := none
  service_fee := none
  total_amount := none
  gcash_reference := none
  payment_proof_url := none
  completed_at := none
  updated_at := 0

/-- `baseRequest` after the customer selects rider 5 at time 10. -/
def offeredRequest : RequestState := { baseRequest with selected_rider_id := some 5, notification_sent_at := some 10, updated_at := 10 }

/-- `offeredRequest` after rider 5 accepts at time 20. -/
def acceptedWithOffer : RequestState := { offeredRequest with rider_id := some 5, status := RequestStatus.assigned, updated_at := 20 }

/-- `offeredRequest` after its offer expires through a status poll. -/
def timedOutCleared : RequestState := { offeredRequest with selected_rider_id := none, notification_sent_at := none }

/-! ### C1 — selected_rider_id vs. status invariant -/

/-- C1 counterexample: the state reached by create → select-rider →
accept has `status = assigned` with `selected_rider_id` still set,
because `accept_request` does not clear the offer fields. This refutes
the claimed invariant that `selected_rider_id` is non-null only while
status is pending. -/
theorem reachable_assigned_with_selected_rider :
    Reachable acceptedWithOffer ∧
    acceptedWithOffer.status = RequestStatus.assigned ∧
    acceptedWithOffer.selected_rider_id = some 5 := by
  refine ⟨?_, rfl, rfl⟩
  have h0 : create_request 0 customerCaller 100 1 none = .ok baseRequest := rfl
  have h1 : select_rider_for_request 10 customerCaller 5 baseRequest = .ok offeredRequest := rfl
  have h2 : accept_request 20 riderFive offeredRequest = .ok acceptedWithOffer := rfl
  exact Reachable.accepted (Reachable.riderSelected (Reachable.created h0) h1) h2

/-- C1 (amended): `selected_rider_id` is set by select-rider only on a
pending request, and it is cleared by decline and by the offer-timeout
poll — but accept does not clear it, and instead leaves it untouched
while moving the status to `assigned`, so the claimed invariant fails
once an outstanding offer is accepted. -/
theorem selected_rider_offer_discipline :
    (∀ (n : Nat) (u : Caller) (r : Nat) (s s' : RequestState),
      select_rider_for_request n u r s = .ok s' →
        s.status = RequestStatus.pending ∧ s'.selected_rider_id = some r) ∧
    (∀ (n : Nat) (u : Caller) (s s' : RequestState),
      decline_request n u s = .ok s' →
        s'.selected_rider_id = none ∧ s'.notification_sent_at = none) ∧
    (∀ (n : Nat) (u : Caller) (s s1 : RequestState),
      poll_request_status n u s = .ok (s1, true) →
        s1.selected_rider_id = none ∧ s1.notification_sent_at = none) ∧
    (∀ (n : Nat) (u : Caller) (s s' : RequestState),
      accept_request n u s = .ok s' →
        s'.selected_rider_id = s.selected_rider_id ∧
        s'.status = RequestStatus.assigned) := by
  refine ⟨?_, ?_, ?_, ?_⟩
  · intro n u r s s' h
    obtain ⟨-, -, hp, hs⟩ := select_rider_ok h
    exact ⟨hp, by rw [hs]⟩
  · intro n u s s' h
    obtain ⟨-, -, hs⟩ := decline_request_ok h
    rw [hs]
    exact ⟨rfl, rfl⟩
  · intro n u s s1 h
    obtain ⟨-, hs⟩ := poll_timed_out_ok h
    rw [hs]
    exact ⟨rfl, rfl⟩
  · intro n u s s' h
    obtain ⟨-, -, hs⟩ := accept_request_ok h
    rw [hs]
    exact ⟨rfl, rfl⟩

/-- C1 amended-claim witness: the select-rider conjunct applied to the
concrete offer trace. -/
theorem selected_rider_offer_discipline_witness :
    baseRequest.status = RequestStatus.pending ∧
    offeredRequest.selected_rider_id = some 5 :=
  selected_rider_offer_discipline.1 10 customerCaller 5 baseRequest offeredRequest rfl

/-! ### C2 — who may accept, and what accept changes -/

/-- C2 counterexample: rider 9 — not the selected rider 5 — accepts the
pending offered request, and the call succeeds; the returned row keeps
`selected_rider_id = 5`, so the offer fields are not cleared either. -/
theorem accept_ignores_selected_rider :
    accept_request 20 riderNine offeredRequest = .ok { offeredRequest with rider_id := some 9, status := RequestStatus.assigned, updated_at := 20 } ∧
    offeredRequest.selected_rider_id = some 5 ∧
    riderNine.riderId = 9 :=
  ⟨rfl, rfl, rfl⟩

/-- C2 (amended): accept succeeds exactly for rider-type callers on a
pending request, regardless of `selected_rider_id`; on success it sets
`rider_id` to the caller's rider profile and status to `assigned`
while leaving the offer fields untouched; non-rider callers get a 403
and any other status a 400, with no mutation (the call returns before
writing). -/
theorem accept_request_characterization (n : Nat) (u : Caller) (s : RequestState) :
    (u.user_type ≠ UserType.rider → accept_request n u s = .error ApiError.forbidden) ∧
    (u.user_type = UserType.rider → s.status ≠ RequestStatus.pending →
      accept_request n u s = .error ApiError.badRequest) ∧
    (u.user_type = UserType.rider → s.status = RequestStatus.pending →
      accept_request n u s = .ok { s with rider_id := some u.riderId, status := RequestStatus.assigned, updated_at := n }) ∧
    (∀ s', accept_request n u s = .ok s' →
      s'.selected_rider_id = s.selected_rider_id ∧
      s'.notification_sent_at = s.notification_sent_at) := by
  refine ⟨fun h => ?_, fun h1 h2 => ?_, fun h1 h2 => ?_, fun s' h => ?_⟩
  · simp [accept_request, h]
  · simp [accept_request, h1, h2]
  · simp [accept_request, h1, h2]
  · obtain ⟨-, -, hs⟩ := accept_request_ok h
    rw [hs]
    exact ⟨rfl, rfl⟩

/-- C2 amended-claim witness: the success conjunct applied to rider 5
accepting the concrete offered request. -/
theorem accept_request_characterization_witness :
    accept_request 20 riderFive offeredRequest = .ok { offeredRequest with rider_id := some 5, status := RequestStatus.assigned, updated_at := 20 } :=
  (accept_request_characterization 20 riderFive offeredRequest).2.2.1 rfl rfl

/-! ### C3 — offer-timeout poll idempotence -/

/-- C3 counterexample: for a pending request whose offer is 690 seconds
old, the first poll reports `timed_out = true` (and clears the offer
fields), but the second poll reports `timed_out = false`, because the
offer timestamp it keys on was erased by the first poll. -/
theorem poll_timeout_second_call_flag :
    poll_request_status 700 customerCaller offeredRequest = .ok (timedOutCleared, true) ∧
    poll_request_status 701 customerCaller timedOutCleared = .ok (timedOutCleared, false) :=
  ⟨rfl, rfl⟩

/-- C3 (amended): for every pending request whose offer timestamp is
more than 600 seconds old, the first poll returns `timed_out = true`
with the offer fields cleared and the status untouched; a second poll
returns the very same state unchanged (the clearing is idempotent) but
reports `timed_out = false`, since no offer timestamp remains. -/
theorem poll_timeout_state_idempotent (n n2 t : Nat) (u : Caller) (s : RequestState)
    (hauth : ¬(u.user_type = UserType.customer ∧ s.customer_id ≠ u.user_id))
    (ht : s.notification_sent_at = some t)
    (hst : s.status = RequestStatus.pending)
    (hexp : 600 < n - t) :
    poll_request_status n u s = .ok ({ s with selected_rider_id := none, notification_sent_at := none }, true) ∧
    poll_request_status n2 u { s with selected_rider_id := none, notification_sent_at := none } = .ok ({ s with selected_rider_id := none, notification_sent_at := none }, false) := by
  constructor
  · unfold poll_request_status
    rw [if_neg hauth]
    rw [ht]
    simp [hst, hexp]
  · unfold poll_request_status
    rw [if_neg (by simpa using hauth)]

/-- C3 amended-claim witness: the theorem applied to the concrete
expired offer. -/
theorem poll_timeout_state_idempotent_witness :
    poll_request_status 700 customerCaller offeredRequest = .ok ({ offeredRequest with selected_rider_id := none, notification_sent_at := none }, true) ∧
    poll_request_status 701 customerCaller { offeredRequest with selected_rider_id := none, notification_sent_at := none } = .ok ({ offeredRequest with selected_rider_id := none, notification_sent_at := none }, false) :=
  poll_timeout_state_idempotent 700 701 10 customerCaller offeredRequest (by decide) rfl rfl (by decide)

theorem routeOk_error (e : ApiError) : routeOk (α := α) (.error e) = false := rfl

theorem routeOk_ok (a : α) : routeOk (.ok a) = true := rfl

/-- `acceptedWithOffer` with the offer trace forgotten: a plain request
assigned to rider 5. -/
def assignedRequest : RequestState := { baseRequest with rider_id := some 5, status := RequestStatus.assigned, updated_at := 20 }

/-- A cancelled request that still carries its assignment. -/
def cancelledAssignedRequest : RequestState := { baseRequest with rider_id := some 5, status := RequestStatus.cancelled, updated_at := 30 }

/-- A cancelled request with no rider. -/
def cancelledRequest : RequestState := { baseRequest with status := RequestStatus.cancelled, updated_at := 30 }

/-- A completed request assigned to rider 5. -/
def completedRequest : RequestState := { baseRequest with rider_id := some 5, status := RequestStatus.completed, completed_at := some 50, updated_at := 50 }

/-! ### C4 — confirm-payment auto-completion -/

/-- C4: confirm-payment by the assigned rider always succeeds and sets
`payment_status` to confirmed; when the delivery status is still
`assigned` or `in_progress` it is auto-advanced to `completed` with
`completed_at` stamped, and in every other status both fields are left
unchanged. -/
theorem confirm_payment_autocompletes (n : Nat) (u : Caller) (url : Option String) (s : RequestState)
    (hu : u.user_type = UserType.rider) (hr : s.rider_id = some u.riderId) :
    ∃ s', confirm_payment n u url s = .ok s' ∧
      s'.payment_status = some PaymentStatus.confirmed ∧
      ((s.status = RequestStatus.assigned ∨ s.status = RequestStatus.in_progress) →
        s'.status = RequestStatus.completed ∧ s'.completed_at = some n) ∧
      (s.status ≠ RequestStatus.assigned ∧ s.status ≠ RequestStatus.in_progress →
        s'.status = s.status ∧ s'.completed_at = s.completed_at) := by
  unfold confirm_payment
  rw [if_neg (by simp [hu]), if_neg (by simp [hr])]
  by_cases hst : s.status = RequestStatus.assigned ∨ s.status = RequestStatus.in_progress
  · rw [if_pos hst]
    exact ⟨_, rfl, rfl, fun _ => ⟨rfl, rfl⟩,
      fun hn => (hst.elim (fun h => (hn.1 h).elim) (fun h => (hn.2 h).elim))⟩
  · rw [if_neg hst]
    exact ⟨_, rfl, rfl, fun h => (hst h).elim, fun _ => ⟨rfl, rfl⟩⟩

/-- C4 witness: rider 5 confirms payment on the concrete assigned
request at time 30. -/
theorem confirm_payment_autocompletes_witness :
    ∃ s', confirm_payment 30 riderFive none acceptedWithOffer = .ok s' ∧
      s'.payment_status = some PaymentStatus.confirmed ∧
      ((acceptedWithOffer.status = RequestStatus.assigned ∨ acceptedWithOffer.status = RequestStatus.in_progress) →
        s'.status = RequestStatus.completed ∧ s'.completed_at = some 30) ∧
      (acceptedWithOffer.status ≠ RequestStatus.assigned ∧ acceptedWithOffer.status ≠ RequestStatus.in_progress →
        s'.status = acceptedWithOffer.status ∧ s'.completed_at = acceptedWithOffer.completed_at) :=
  confirm_payment_autocompletes 30 riderFive none acceptedWithOffer rfl rfl

/-! ### C10 — confirm-payment has no state precondition -/

/-- C10: confirm-payment demands nothing of the request's state beyond
the assignment to the calling rider: it succeeds and sets
`payment_status` to confirmed with the money fields untouched (in
particular still null when no bill was submitted), and on an already
`completed` or `cancelled` request it leaves `status` and
`completed_at` unchanged. -/
theorem confirm_payment_no_state_precondition (n : Nat) (u : Caller) (url : Option String) (s : RequestState)
    (hu : u.user_type = UserType.rider) (hr : s.rider_id = some u.riderId) :
    ∃ s', confirm_payment n u url s = .ok s' ∧
      s'.payment_status = some PaymentStatus.confirmed ∧
      s'.item_cost = s.item_cost ∧ s'.service_fee = s.service_fee ∧
      s'.total_amount = s.total_amount ∧
      ((s.status = RequestStatus.completed ∨ s.status = RequestStatus.cancelled) →
        s'.status = s.status ∧ s'.completed_at = s.completed_at) := by
  unfold confirm_payment
  rw [if_neg (by simp [hu]), if_neg (by simp [hr])]
  by_cases hst : s.status = RequestStatus.assigned ∨ s.status = RequestStatus.in_progress
  · rw [if_pos hst]
    refine ⟨_, rfl, rfl, rfl, rfl, rfl, fun hterm => ?_⟩
    rcases hst with h | h <;> rcases hterm with h' | h' <;>
      rw [h] at h' <;> exact RequestStatus.noConfusion h'
  · rw [if_neg hst]
    exact ⟨_, rfl, rfl, rfl, rfl, rfl, fun _ => ⟨rfl, rfl⟩⟩

/-- C10 witness: rider 5 confirms payment on the concrete cancelled,
bill-less request at time 40. -/
theorem confirm_payment_no_state_precondition_witness :
    ∃ s', confirm_payment 40 riderFive none cancelledAssignedRequest = .ok s' ∧
      s'.payment_status = some PaymentStatus.confirmed ∧
      s'.item_cost = cancelledAssignedRequest.item_cost ∧
      s'.service_fee = cancelledAssignedRequest.service_fee ∧
      s'.total_amount = cancelledAssignedRequest.total_amount ∧
      ((cancelledAssignedRequest.status = RequestStatus.completed ∨ cancelledAssignedRequest.status = RequestStatus.cancelled) →
        s'.status = cancelledAssignedRequest.status ∧ s'.completed_at = cancelledAssignedRequest.completed_at) :=
  confirm_payment_no_state_precondition 40 riderFive none cancelledAssignedRequest rfl rfl

/-! ### C5 — terminality of completed and cancelled -/

/-- C5 counterexample: the generic status update moves a `cancelled`
request back to `assigned`, so `cancelled` is not terminal. -/
theorem cancelled_request_status_update_succeeds :
    update_request_status 40 customerCaller RequestStatus.assigned cancelledRequest = .ok { cancelledRequest with status := RequestStatus.assigned, updated_at := 40 } ∧
    cancelledRequest.status = RequestStatus.cancelled :=
  ⟨rfl, rfl⟩

/-- C5 (amended): `completed` is terminal — every lifecycle operation
on a completed request either fails with a precondition error or (for
confirm-payment, the poll, and decline) leaves the status `completed`.
`cancelled` is not terminal: accept, start-delivery, complete-delivery,
submit-bill, and select-rider reject it, but the generic status update
and cancel are accepted on a cancelled request and the update may move
it to any status. -/
theorem terminal_status_discipline (n : Nat) (u : Caller) (st : RequestStatus) (s : RequestState) :
    (s.status = RequestStatus.completed →
      routeOk (update_request_status n u st s) = false ∧
      routeOk (cancel_request n u s) = false ∧
      routeOk (accept_request n u s) = false ∧
      routeOk (start_delivery n u s) = false ∧
      routeOk (complete_delivery n u s) = false ∧
      (∀ r, routeOk (select_rider_for_request n u r s) = false) ∧
      (∀ c f, routeOk (submit_bill n u c f s) = false) ∧
      (∀ url s', confirm_payment n u url s = .ok s' → s'.status = RequestStatus.completed) ∧
      (∀ s' b, poll_request_status n u s = .ok (s', b) → s'.status = RequestStatus.completed) ∧
      (∀ s', decline_request n u s = .ok s' → s'.status = RequestStatus.completed)) ∧
    (s.status = RequestStatus.cancelled →
      routeOk (accept_request n u s) = false ∧
      routeOk (start_delivery n u s) = false ∧
      routeOk (complete_delivery n u s) = false ∧
      (∀ c f, routeOk (submit_bill n u c f s) = false) ∧
      (∀ r, routeOk (select_rider_for_request n u r s) = false)) := by
  constructor
  · intro h
    refine ⟨?_, ?_, ?_, ?_, ?_, fun r => ?_, fun c f => ?_, fun url s' hok => ?_, fun s' b hok => ?_, fun s' hok => ?_⟩
    · simp [update_request_status, h, apply_ite routeOk, routeOk_error]
    · simp [cancel_request, h, apply_ite routeOk, routeOk_error]
    · simp [accept_request, h, apply_ite routeOk, routeOk_error]
    · simp [start_delivery, h, apply_ite routeOk, routeOk_error]
    · simp [complete_delivery, h, apply_ite routeOk, routeOk_error]
    · simp [select_rider_for_request, h, apply_ite routeOk, routeOk_error]
    · simp [submit_bill, h, apply_ite routeOk, routeOk_error]
    · obtain ⟨-, -, -, -, -, -, -, hneg⟩ := confirm_payment_ok hok
      exact (hneg (by simp [h])).1.trans h
    · unfold poll_request_status at hok
      split at hok
      · exact Except.noConfusion hok
      · split at hok
        · split at hok
          · next hc => rw [h] at hc; simp at hc
          · cases hok; exact h
        · cases hok; exact h
    · obtain ⟨-, -, hs⟩ := decline_request_ok hok
      rw [hs]; exact h
  · intro h
    refine ⟨?_, ?_, ?_, fun c f => ?_, fun r => ?_⟩
    · simp [accept_request, h, apply_ite routeOk, routeOk_error]
    · simp [start_delivery, h, apply_ite routeOk, routeOk_error]
    · simp [complete_delivery, h, apply_ite routeOk, routeOk_error]
    · simp [submit_bill, h, apply_ite routeOk, routeOk_error]
    · simp [select_rider_for_request, h, apply_ite routeOk, routeOk_error]

/-- C5 amended-claim witness: the completed branch applied to the
concrete completed request, for the generic status update. -/
theorem terminal_status_discipline_witness :
    routeOk (update_request_status 60 customerCaller RequestStatus.pending completedRequest) = false :=
  ((terminal_status_discipline 60 customerCaller RequestStatus.pending completedRequest).1 rfl).1

/-! ### C6 — fee tier boundaries -/

/-- C6: the fee function hits the stated tier boundaries exactly:
30 at 0 and at 3 km, 60 just past 3 km, 90 at 9 km, 120 just past
9 km, and 30 for every distance at or below zero. -/
theorem fee_tier_boundaries :
    calculate_service_fee 0 = 30 ∧
    calculate_service_fee 3 = 30 ∧
    calculate_service_fee (30001/10000) = 30 + 30 ∧
    calculate_service_fee 9 = 30 + 2 * 30 ∧
    calculate_service_fee (91/10) = 30 + 3 * 30 ∧
    (∀ d : ℚ, d ≤ 0 → calculate_service_fee d = 30) := by
  refine ⟨by decide, by decide, ?_, ?_, ?_, fun d hd => ?_⟩
  · norm_num [calculate_service_fee, tierLookup, SERVICE_FEE_TIERS]
  · norm_num [calculate_service_fee, tierLookup, SERVICE_FEE_TIERS]
  · have hceil : (⌈(1:ℚ)/30⌉ : ℤ) = 1 := by
      rw [Int.ceil_eq_iff]
      constructor <;> norm_num
    norm_num [calculate_service_fee, tierLookup, SERVICE_FEE_TIERS,
      FEE_PER_EXTRA_BRACKET, BRACKET_SIZE_KM]
    rw [hceil]
    norm_num
  · simp [calculate_service_fee, hd]

/-- C6 witness: the at-or-below-zero conjunct applied at −2 km. -/
theorem fee_tier_boundaries_witness : calculate_service_fee (-2) = 30 :=
  fee_tier_boundaries.2.2.2.2.2 (-2) (by norm_num)

/-! ### C8 — new_message broadcast recipients -/

/-- C8 counterexample: with the sender (user 10) and user 20 both in
the room, the new_message broadcast is delivered to both — the sender's
own channel is not excluded, contradicting the claim that the sender is
never echoed. -/
theorem send_message_echoes_sender :
    send_message_recipients [10, 20] = [10, 20] ∧
    10 ∈ send_message_recipients [10, 20] :=
  ⟨rfl, by decide⟩

/-- C8 (amended): the new_message broadcast of `send_message` is
delivered to every occupant of the conversation's room, the sender
included — the handler passes no exclude id to `broadcast_to_room`,
unlike the typing, read-receipt, and join broadcasts. -/
theorem send_message_broadcast_all (room : Room) :
    send_message_recipients room = room := by
  simp [send_message_recipients, broadcast_to_room]

/-! ### C9 — unread counts, mark-read, idempotence -/

theorem mark_messages_read_messages (db : MessagingDB) (ids : List Nat) (uid : Nat) :
    (mark_messages_read db ids uid).messages = db.messages := by
  induction ids generalizing db with
  | nil => rfl
  | cons mid rest ih =>
      simp only [mark_messages_read]
      rw [ih]
      split <;> rfl

theorem mark_messages_read_receipt_mem (db : MessagingDB) (ids : List Nat) (uid x y : Nat) :
    ((x, y) ∈ (mark_messages_read db ids uid).receipts ↔
      (x, y) ∈ db.receipts ∨ (x ∈ ids ∧ y = uid)) := by
  induction ids generalizing db with
  | nil => simp [mark_messages_read]
  | cons mid rest ih =>
      simp only [mark_messages_read]
      rw [ih]
      by_cases hc : (mid, uid) ∈ db.receipts
      · rw [if_pos (by simpa [hasReceipt] using hc)]
        simp only [List.mem_cons]
        constructor
        · rintro (hm | ⟨hx, hy⟩)
          · exact Or.inl hm
          · exact Or.inr ⟨Or.inr hx, hy⟩
        · rintro (hm | ⟨hx | hx, hy⟩)
          · exact Or.inl hm
          · subst hx; subst hy; exact Or.inl hc
          · exact Or.inr ⟨hx, hy⟩
      · rw [if_neg (by simpa [hasReceipt] using hc)]
        simp only [List.mem_append, List.mem_singleton, List.mem_cons, Prod.mk.injEq]
        tauto

theorem mark_messages_read_of_all (db : MessagingDB) (ids : List Nat) (uid : Nat)
    (hall : ∀ mid ∈ ids, (mid, uid) ∈ db.receipts) :
    mark_messages_read db ids uid = db := by
  induction ids generalizing db with
  | nil => rfl
  | cons mid rest ih =>
      simp only [mark_messages_read]
      rw [if_pos (by simpa [hasReceipt] using hall mid (List.mem_cons_self mid rest))]
      exact ih db (fun m hm => hall m (List.mem_cons_of_mem _ hm))

/-- The soft-deleted unread message of the C9 counterexample. -/
def deletedMessage : Message := { message_id := 1, conversation_id := 1, sender_id := 2, is_deleted := true }

/-- A conversation holding only a soft-deleted message, no receipts. -/
def deletedOnlyDB : MessagingDB := { messages := [deletedMessage], receipts := [] }

/-- C9 counterexample: with a single soft-deleted message from the
other party and no receipt for caller 1, the code's unread count is 0
while the count described by the claim (which says nothing about
soft-deleted messages) is 1: `get_unread_count` additionally filters
`is_deleted == False`. -/
theorem unread_count_ignores_deleted :
    get_unread_count deletedOnlyDB 1 1 = 0 ∧ unreadCountSpec deletedOnlyDB 1 1 = 1 :=
  ⟨rfl, rfl⟩

/-- C9 (amended): the unread count equals the number of non-soft-deleted
messages in the conversation whose sender is not the caller and that
carry no read receipt for the caller; after mark-read over exactly
those message ids the count is 0; and mark-read is idempotent — an
identical second call changes nothing (no receipts are added). -/
theorem unread_count_mark_read :
    (∀ (db : MessagingDB) (c uid : Nat) (m : Message),
      m ∈ unreadMessages db c uid ↔
        m ∈ db.messages ∧ m.conversation_id = c ∧ m.sender_id ≠ uid ∧
        m.is_deleted = false ∧ (m.message_id, uid) ∉ db.receipts) ∧
    (∀ (db : MessagingDB) (c uid : Nat),
      get_unread_count db c uid = (unreadMessages db c uid).length) ∧
    (∀ (db : MessagingDB) (c uid : Nat),
      get_unread_count
        (mark_messages_read db ((unreadMessages db c uid).map Message.message_id) uid)
        c uid = 0) ∧
    (∀ (db : MessagingDB) (ids : List Nat) (uid : Nat),
      mark_messages_read (mark_messages_read db ids uid) ids uid =
        mark_messages_read db ids uid) := by
  have hmem : ∀ (db : MessagingDB) (c uid : Nat) (m : Message),
      m ∈ unreadMessages db c uid ↔
        m ∈ db.messages ∧ m.conversation_id = c ∧ m.sender_id ≠ uid ∧
        m.is_deleted = false ∧ (m.message_id, uid) ∉ db.receipts := by
    intro db c uid m
    simp [unreadMessages, List.mem_filter, hasReceipt, and_assoc]
  refine ⟨hmem, fun db c uid => rfl, fun db c uid => ?_, fun db ids uid => ?_⟩
  · rw [get_unread_count, List.length_eq_zero, unreadMessages,
      List.filter_eq_nil_iff]
    intro m hm hpred
    rw [mark_messages_read_messages] at hm
    have hm' : m ∈ unreadMessages (mark_messages_read db ((unreadMessages db c uid).map Message.message_id) uid) c uid := by
      rw [unreadMessages, List.mem_filter, mark_messages_read_messages]
      exact ⟨hm, hpred⟩
    rw [hmem] at hm'
    obtain ⟨-, hconv, hsend, hdel, hnorec⟩ := hm'
    have hunread : m ∈ unreadMessages db c uid := by
      rw [hmem]
      refine ⟨hm, hconv, hsend, hdel, fun hr => ?_⟩
      exact hnorec ((mark_messages_read_receipt_mem db _ uid _ uid).mpr (Or.inl hr))
    exact hnorec ((mark_messages_read_receipt_mem db _ uid _ uid).mpr
      (Or.inr ⟨List.mem_map_of_mem Message.message_id hunread, rfl⟩))
  · exact mark_messages_read_of_all _ _ _
      (fun mid hm => (mark_messages_read_receipt_mem db ids uid mid uid).mpr (Or.inr ⟨hm, rfl⟩))

/-! ### C7 — rider discovery round-trip -/

/-- An available rider 2 km out (under the toy distance function), with
a presence record 100 seconds old at poll time 1100. -/
def nearRider : RiderRow where
  rider_id := 8
  user_id := 108
  full_name := "Near Rider"
  phone_number := "0002"
  vehicle_type := "motorcycle"
  license_plate := "NEAR-8"
  availability_status := "available"
  rating := 1
  total_tasks_completed := 3
  presence := some { latitude := 2, longitude := 1, accuracy := none, address := none, created_at := 1000 }

/-- The toy distance function of the C7 theorems: a candidate's stored
latitude read as kilometers (discovery is parametric in the distance
function, so any instance is a valid probe of the endpoint logic). -/
def latDist (_lat _lng plat _plng : ℚ) : ℚ := plat

theorem from_db_row_selectRow (r : RiderRow) :
    AvailableRider.from_db_row (selectRow r) = none := by
  rcases hp : r.presence with _ | p <;>
  · unfold selectRow
    rw [hp]
    rfl

theorem riderLoop_cons_none {dist : ℚ → ℚ → ℚ → ℚ → ℚ} {lat lng radius : ℚ}
    {row : List DBValue} {rest : List (List DBValue)}
    (h : AvailableRider.from_db_row row = none) :
    riderLoop dist lat lng radius (row :: rest) =
      .error "Error fetching available riders: tuple index out of range" := by
  unfold riderLoop
  rw [h]

/-- C7 (code bug): the discovery endpoint can never return a rider —
`AvailableRider.from_db_row` reads `row[14]` of the 14-column discovery
SELECT, so every fetched row raises IndexError and the outer `except`
turns the request into a 500 error response; a success is possible only
when no row was fetched, and is then empty. In particular at the
failing input — a fresh available rider at distance 2 with radius 10 —
the endpoint returns the 500 instead of the rider the claim (and the
endpoint's own docstring) promises. -/
theorem discovery_returns_no_rider :
    (∀ (dist : ℚ → ℚ → ℚ → ℚ → ℚ) (db : List RiderRow) (now : Nat)
       (lat lng R : ℚ) (limit : Nat),
      get_available_riders dist db now lat lng R limit =
          .error "Error fetching available riders: tuple index out of range" ∨
        get_available_riders dist db now lat lng R limit = .ok []) ∧
    get_available_riders latDist [nearRider] 1100 0 0 10 50 =
      .error "Error fetching available riders: tuple index out of range" ∧
    freshWorkable 1100 nearRider = true ∧
    latDist 0 0 2 1 ≤ 10 := by
  refine ⟨?_, rfl, rfl, by norm_num [latDist]⟩
  intro dist db now lat lng R limit
  unfold get_available_riders
  cases hrows : (sortLe ratingDesc (db.filter (freshWorkable now))).take limit with
  | nil =>
      right
      rfl
  | cons r rest =>
      dsimp only
      rw [List.map_cons, riderLoop_cons_none (from_db_row_selectRow r)]
      left
      rfl

end Pasugo
